import Mathlib

/-
  Verification development for the ALICE Bio Platform core engine
  (src/services/core-engine/src/main.rs).

  The deterministic synthetic-computation engine is embedded shallowly:
  * input texts are byte sequences (`List Nat`, each byte < 256 in practice);
  * `u64` arithmetic is `Nat` with explicit `% 2 ^ 64` where the source wraps;
  * `f64` quantities are modelled as exact rationals (`ℚ`); every float the
    source computes here is of the form `base + k * step` for small integer
    `k`, so the rational model agrees with the `f64` evaluation on every
    field value and on the one comparison (`rmsd < 2.0`) the source makes;
  * the boundary-supplied opaque ids (`uuid`) and wall-clock `elapsed_us`
    values are nondeterministic boundary data and are not part of the pure
    derivation; which serialized fields a response carries is modelled by
    explicit field-name lists read off the `#[derive(Serialize)]` structs.
-/

namespace AliceBio

/-- 2 ^ 64, the modulus of Rust `u64` arithmetic. -/
def U64 : Nat := 2 ^ 64

/-- `fn fnv1a(data: &[u8]) -> u64`: FNV-1a, 64-bit.
`let mut h: u64 = 0xcbf2_9ce4_8422_2325; for &b in data { h ^= b as u64; h = h.wrapping_mul(0x0100_0000_01b3); } h` -/
def fnv1a (data : List Nat) : Nat :=
  data.foldl (fun h b => ((h ^^^ b) * 0x0100000001b3) % U64) 0xcbf29ce484222325

/-- Rust struct `SimulateResponse`, pure derivation part (the boundary fields
`sim_id` and `elapsed_us` are nondeterministic and excluded, see header). -/
structure SimulateResponse where
  molecule : List Nat
  simulation_type : String
  steps : Nat
  sdf_field_resolution : Nat
  energy_kcal_mol : ℚ
  rmsd_angstrom : ℚ
  folding_state : String
deriving DecidableEq

/-- `async fn simulate`: pure derivation part of the handler. -/
def simulate (molecule : List Nat) (simulation_type : Option String)
    (steps : Option Nat) (temperature_k : Option ℚ) : SimulateResponse :=
  let sim_type := simulation_type.getD "molecular-dynamics"
  let steps := steps.getD 10000
  let _temp := temperature_k.getD (31015 / 100 : ℚ)  -- body temperature; bound but unused, as in the source
  let h := fnv1a molecule
  let energy : ℚ := -100 - ((h % 500 : Nat) : ℚ)
  let rmsd : ℚ := ((h % 30 : Nat) : ℚ) * (1 / 10) + 1 / 2
  { molecule := molecule
    simulation_type := sim_type
    steps := steps
    sdf_field_resolution := 128
    energy_kcal_mol := energy
    rmsd_angstrom := rmsd
    folding_state := if rmsd < 2 then "folded" else "partially_folded" }

/-- Rust struct `ScreenHit`. -/
structure ScreenHit where
  compound_id : String
  binding_affinity_nm : ℚ
  selectivity_score : ℚ
  drug_likeness : ℚ
deriving DecidableEq

/-- Rust struct `ScreenResponse`, pure derivation part (`screen_id` and
`elapsed_us` are boundary data, excluded). -/
structure ScreenResponse where
  target : List Nat
  library_screened : Nat
  hits : List ScreenHit
  hit_rate_pct : ℚ
deriving DecidableEq

/-- `format!("{:06}", n)`: decimal digits of `n`, zero-padded on the left to
width 6 (wider numbers print in full). -/
def pad6 (n : Nat) : String :=
  let s := toString n
  String.mk (List.replicate (6 - s.length) '0') ++ s

/-- The closure body inside `screen`: the `i`-th screening hit derived from
hash `h` (`wrapping_add` is `Nat` addition followed by `% U64`). -/
def screenHit (h : Nat) (i : Nat) : ScreenHit :=
  { compound_id := "ALICE-" ++ pad6 ((h + i) % U64 % 999999)
    binding_affinity_nm := (((h + i) % U64 % 100 : Nat) : ℚ) + 1
    selectivity_score := 7 / 10 + (((h + i) % U64 % 30 : Nat) : ℚ) * (1 / 100)
    drug_likeness := 1 / 2 + (((h + i * 7) % U64 % 50 : Nat) : ℚ) * (1 / 100) }

/-- `async fn screen`: pure derivation part of the handler.
`(lib_size as f64 * 0.005) as usize` is `⌊lib_size / 200⌋`, written
`lib_size * 5 / 1000` in `Nat` division (exact: for every `u32` value the
`f64` product rounds to a value with the same floor, since multiples of
1/200 below 2^32/200 are never within the rounding error of a crossing). -/
def screen (target : List Nat) (library_size : Option Nat)
    (binding_threshold : Option ℚ) : ScreenResponse :=
  let lib_size := library_size.getD 10000
  let _threshold := binding_threshold.getD 100  -- nM; bound but unused, as in the source
  let h := fnv1a target
  let hit_count := lib_size * 5 / 1000  -- ~0.5% hit rate
  let hits : List ScreenHit := (List.range (min hit_count 20)).map (screenHit h)
  { target := target
    library_screened := lib_size
    hits := hits
    hit_rate_pct := 1 / 2 }

/-- Rust struct `DomainInfo`. -/
structure DomainInfo where
  name : String
  start : Nat
  «end» : Nat
  domain_type : String
  confidence : ℚ
deriving DecidableEq

/-- Rust struct `PredictResponse`, pure derivation part (`prediction_id` and
`elapsed_us` are boundary data, excluded). -/
structure PredictResponse where
  sequence_length : Nat
  prediction_type : String
  structure_confidence : ℚ
  sdf_representation_bytes : Nat
  secondary_structure : String
  domains : List DomainInfo
deriving DecidableEq

/-- `async fn predict`: pure derivation part of the handler. -/
def predict (sequence : List Nat) (prediction_type : Option String) : PredictResponse :=
  let pred_type := prediction_type.getD "structure"
  let seq_len := sequence.length
  let h := fnv1a sequence
  let confidence : ℚ := 7 / 10 + ((h % 25 : Nat) : ℚ) * (1 / 100)
  let sdf_bytes := seq_len * 128  -- SDF representation
  let domains : List DomainInfo :=
    [ { name := "kinase_domain", start := 0, «end» := seq_len / 3,
        domain_type := "catalytic", confidence := confidence + 5 / 100 },
      { name := "binding_domain", start := seq_len / 3, «end» := seq_len * 2 / 3,
        domain_type := "regulatory", confidence := confidence } ]
  { sequence_length := seq_len
    prediction_type := pred_type
    structure_confidence := confidence
    sdf_representation_bytes := sdf_bytes
    secondary_structure := "HHHHCCCEEEEECCCHHHHH"
    domains := domains }

/-- Rust struct `EnergyResponse` (it carries no timing field: the full field
list is `energyResponseFields` below). -/
structure EnergyResponse where
  molecule : List Nat
  force_field : String
  total_energy_kcal : ℚ
  bond_energy : ℚ
  angle_energy : ℚ
  dihedral_energy : ℚ
  vdw_energy : ℚ
  electrostatic_energy : ℚ
  solvation_energy : ℚ
deriving DecidableEq

/-- `async fn energy`: pure derivation part of the handler. -/
def energy (molecule : List Nat) (force_field : Option String) : EnergyResponse :=
  let ff := force_field.getD "amber-ff14"
  let h := fnv1a molecule
  let bond : ℚ := -50 - ((h % 100 : Nat) : ℚ)
  let angle : ℚ := -20 - ((h % 50 : Nat) : ℚ)
  let dihedral : ℚ := -10 - ((h % 30 : Nat) : ℚ)
  let vdw : ℚ := -30 - ((h % 80 : Nat) : ℚ)
  let elec : ℚ := -15 - ((h % 40 : Nat) : ℚ)
  let solv : ℚ := -5 - ((h % 20 : Nat) : ℚ)
  { molecule := molecule
    force_field := ff
    total_energy_kcal := bond + angle + dihedral + vdw + elec + solv
    bond_energy := bond
    angle_energy := angle
    dihedral_energy := dihedral
    vdw_energy := vdw
    electrostatic_energy := elec
    solvation_energy := solv }

/-- Rust struct `Stats`: the process-wide usage counters. -/
structure Stats where
  total_simulations : Nat
  total_screenings : Nat
  total_predictions : Nat
  molecules_analyzed : Nat
deriving DecidableEq

/-- One completed request, with the data the counter update depends on
(`screen` adds the defaulted library size to `molecules_analyzed`). -/
inductive Op where
  | simulateOp : Op
  | screenOp (lib_size : Nat) : Op
  | predictOp : Op
  | energyOp : Op
deriving DecidableEq

/-- The counter update each handler performs inside its critical section:
`simulate`: `st.total_simulations += 1; st.molecules_analyzed += 1`;
`screen`: `st.total_screenings += 1; st.molecules_analyzed += lib_size as u64`;
`predict`: `st.total_predictions += 1`;
`energy`: `st.molecules_analyzed += 1`. -/
def stepStats (st : Stats) (op : Op) : Stats :=
  match op with
  | .simulateOp =>
      { st with total_simulations := st.total_simulations + 1,
                molecules_analyzed := st.molecules_analyzed + 1 }
  | .screenOp lib_size =>
      { st with total_screenings := st.total_screenings + 1,
                molecules_analyzed := st.molecules_analyzed + lib_size }
  | .predictOp =>
      { st with total_predictions := st.total_predictions + 1 }
  | .energyOp =>
      { st with molecules_analyzed := st.molecules_analyzed + 1 }

/-- Counter state after a sequence of completed requests. -/
def runOps (st : Stats) (ops : List Op) : Stats :=
  ops.foldl stepStats st

/-- Serialized fields of `SimulateResponse`, in source order. -/
def simulateResponseFields : List String :=
  ["sim_id", "molecule", "simulation_type", "steps", "sdf_field_resolution",
   "energy_kcal_mol", "rmsd_angstrom", "folding_state", "elapsed_us"]

/-- Serialized fields of `ScreenResponse`, in source order. -/
def screenResponseFields : List String :=
  ["screen_id", "target", "library_screened", "hits", "hit_rate_pct", "elapsed_us"]

/-- Serialized fields of `PredictResponse`, in source order. -/
def predictResponseFields : List String :=
  ["prediction_id", "sequence_length", "prediction_type", "structure_confidence",
   "sdf_representation_bytes", "secondary_structure", "domains", "elapsed_us"]

/-- Serialized fields of `EnergyResponse`, in source order. -/
def energyResponseFields : List String :=
  ["molecule", "force_field", "total_energy_kcal", "bond_energy", "angle_energy",
   "dihedral_energy", "vdw_energy", "electrostatic_energy", "solvation_energy"]

/-- Serialized fields of `StatsResponse`, in source order. -/
def statsResponseFields : List String :=
  ["total_simulations", "total_screenings", "total_predictions", "molecules_analyzed"]

/-- Serialized fields of `Health`, in source order. -/
def healthResponseFields : List String :=
  ["status", "version", "uptime_secs", "total_ops"]

/-- Byte sequence of the ASCII text "caffeine". -/
def caffeineBytes : List Nat := [99, 97, 102, 102, 101, 105, 110, 101]

/-- Byte sequence of the ASCII text "water". -/
def waterBytes : List Nat := [119, 97, 116, 101, 114]

/-! ### Checked (failure-aware) variants of the derivations

Rust integer `%` and `/` panic exactly when the divisor is zero; no other
step of the derivation layer can fail (wrapping ops and `format!` are
total, and the `f64`-to-`usize` cast saturates). The `Checked` variants
below mirror each derivation with every such fallible step routed through
`Option`; proving them equal to `some` of the plain derivation shows no
derivation step can fail. -/

/-- Rust `a % b`: `none` exactly when the divisor is zero (Rust panics). -/
def checkedMod (a b : Nat) : Option Nat :=
  if b = 0 then none else some (a % b)

/-- Rust `a / b`: `none` exactly when the divisor is zero (Rust panics). -/
def checkedDiv (a b : Nat) : Option Nat :=
  if b = 0 then none else some (a / b)

/-- Option-valued map that fails as soon as one element's derivation fails. -/
def mapOption {α β : Type} (f : α → Option β) : List α → Option (List β)
  | [] => some []
  | a :: l => do
      let b ← f a
      let l' ← mapOption f l
      pure (b :: l')

/-- `simulate` with every fallible step checked. -/
def simulateChecked (molecule : List Nat) (simulation_type : Option String)
    (steps : Option Nat) (temperature_k : Option ℚ) : Option SimulateResponse := do
  let sim_type := simulation_type.getD "molecular-dynamics"
  let steps := steps.getD 10000
  let _temp := temperature_k.getD (31015 / 100 : ℚ)
  let h := fnv1a molecule
  let e ← checkedMod h 500
  let m ← checkedMod h 30
  let energy : ℚ := -100 - (e : ℚ)
  let rmsd : ℚ := (m : ℚ) * (1 / 10) + 1 / 2
  pure { molecule := molecule
         simulation_type := sim_type
         steps := steps
         sdf_field_resolution := 128
         energy_kcal_mol := energy
         rmsd_angstrom := rmsd
         folding_state := if rmsd < 2 then "folded" else "partially_folded" }

/-- The `i`-th screening hit with every fallible step checked. -/
def screenHitChecked (h i : Nat) : Option ScreenHit := do
  let c ← checkedMod ((h + i) % U64) 999999
  let a ← checkedMod ((h + i) % U64) 100
  let s ← checkedMod ((h + i) % U64) 30
  let d ← checkedMod ((h + i * 7) % U64) 50
  pure { compound_id := "ALICE-" ++ pad6 c
         binding_affinity_nm := (a : ℚ) + 1
         selectivity_score := 7 / 10 + (s : ℚ) * (1 / 100)
         drug_likeness := 1 / 2 + (d : ℚ) * (1 / 100) }

/-- `screen` with every fallible step checked. -/
def screenChecked (target : List Nat) (library_size : Option Nat)
    (binding_threshold : Option ℚ) : Option ScreenResponse := do
  let lib_size := library_size.getD 10000
  let _threshold := binding_threshold.getD (100 : ℚ)
  let h := fnv1a target
  let hit_count ← checkedDiv (lib_size * 5) 1000
  let hits ← mapOption (screenHitChecked h) (List.range (min hit_count 20))
  pure { target := target
         library_screened := lib_size
         hits := hits
         hit_rate_pct := 1 / 2 }

/-- `predict` with every fallible step checked. -/
def predictChecked (sequence : List Nat) (prediction_type : Option String) :
    Option PredictResponse := do
  let pred_type := prediction_type.getD "structure"
  let seq_len := sequence.length
  let h := fnv1a sequence
  let c ← checkedMod h 25
  let confidence : ℚ := 7 / 10 + (c : ℚ) * (1 / 100)
  let third ← checkedDiv seq_len 3
  let twoThirds ← checkedDiv (seq_len * 2) 3
  pure { sequence_length := seq_len
         prediction_type := pred_type
         structure_confidence := confidence
         sdf_representation_bytes := seq_len * 128
         secondary_structure := "HHHHCCCEEEEECCCHHHHH"
         domains :=
           [ { name := "kinase_domain", start := 0, «end» := third,
               domain_type := "catalytic", confidence := confidence + 5 / 100 },
             { name := "binding_domain", start := third, «end» := twoThirds,
               domain_type := "regulatory", confidence := confidence } ] }

/-- `energy` with every fallible step checked. -/
def energyChecked (molecule : List Nat) (force_field : Option String) :
    Option EnergyResponse := do
  let ff := force_field.getD "amber-ff14"
  let h := fnv1a molecule
  let b ← checkedMod h 100
  let a ← checkedMod h 50
  let d ← checkedMod h 30
  let v ← checkedMod h 80
  let e ← checkedMod h 40
  let so ← checkedMod h 20
  let bond : ℚ := -50 - (b : ℚ)
  let angle : ℚ := -20 - (a : ℚ)
  let dihedral : ℚ := -10 - (d : ℚ)
  let vdw : ℚ := -30 - (v : ℚ)
  let elec : ℚ := -15 - (e : ℚ)
  let solv : ℚ := -5 - (so : ℚ)
  pure { molecule := molecule
         force_field := ff
         total_energy_kcal := bond + angle + dihedral + vdw + elec + solv
         bond_energy := bond
         angle_energy := angle
         dihedral_energy := dihedral
         vdw_energy := vdw
         electrostatic_energy := elec
         solvation_energy := solv }

/-! ### Helper lemmas -/

/-- The FNV-1a accumulator stays below `2 ^ 64` along the fold. -/
lemma fnv1a_foldl_lt (bs : List Nat) (acc : Nat) (hacc : acc < U64) :
    bs.foldl (fun h b => ((h ^^^ b) * 0x0100000001b3) % U64) acc < U64 := by
  induction bs generalizing acc with
  | nil => exact hacc
  | cons b bs ih => exact ih _ (Nat.mod_lt _ (by norm_num [U64]))

/-- `mapOption` of a never-failing function is `some` of the plain map. -/
lemma mapOption_eq_some_map {α β : Type} (g : α → Option β) (f : α → β)
    (hf : ∀ a, g a = some (f a)) (l : List α) :
    mapOption g l = some (l.map f) := by
  induction l with
  | nil => rfl
  | cons a l ih => simp [mapOption, hf, ih]

/-- An `if` chooses its first branch exactly when the condition holds,
provided the branches differ. -/
lemma ite_eq_first_iff {c : Prop} [Decidable c] {a b : String} (hne : b ≠ a) :
    (if c then a else b) = a ↔ c := by
  split <;> simp_all

/-- An `if` chooses its second branch exactly when the condition fails,
provided the branches differ. -/
lemma ite_eq_second_iff {c : Prop} [Decidable c] {a b : String} (hne : a ≠ b) :
    (if c then a else b) = b ↔ ¬c := by
  split <;> simp_all

/-- Every single counter update is monotone in all four counters. -/
lemma stepStats_mono (st : Stats) (op : Op) :
    st.total_simulations ≤ (stepStats st op).total_simulations
    ∧ st.total_screenings ≤ (stepStats st op).total_screenings
    ∧ st.total_predictions ≤ (stepStats st op).total_predictions
    ∧ st.molecules_analyzed ≤ (stepStats st op).molecules_analyzed := by
  cases op <;> simp [stepStats]

/-- Counter monotonicity over any sequence of completed requests. -/
lemma runOps_mono (ops : List Op) (st : Stats) :
    st.total_simulations ≤ (runOps st ops).total_simulations
    ∧ st.total_screenings ≤ (runOps st ops).total_screenings
    ∧ st.total_predictions ≤ (runOps st ops).total_predictions
    ∧ st.molecules_analyzed ≤ (runOps st ops).molecules_analyzed := by
  induction ops generalizing st with
  | nil => exact ⟨le_rfl, le_rfl, le_rfl, le_rfl⟩
  | cons op ops ih =>
      have h1 := stepStats_mono st op
      have h2 := ih (stepStats st op)
      exact ⟨le_trans h1.1 h2.1, le_trans h1.2.1 h2.2.1,
             le_trans h1.2.2.1 h2.2.2.1, le_trans h1.2.2.2 h2.2.2.2⟩

/-- The folding label of a simulation is decided by comparing its own rmsd
field against 2. -/
lemma simulate_folding_ite (molecule : List Nat) (simulation_type : Option String)
    (steps : Option Nat) (temperature_k : Option ℚ) :
    (simulate molecule simulation_type steps temperature_k).folding_state
      = if (simulate molecule simulation_type steps temperature_k).rmsd_angstrom < 2
        then "folded" else "partially_folded" := rfl

/-! ### Claim theorems -/

/-- Claim C8: the content hash is 64-bit FNV-1a. `fnv1a` of the empty byte
sequence is the initial constant `0xcbf29ce484222325`; extending the input
by one byte XORs that byte into the accumulator and multiplies by the prime
`0x100000001b3`, wrapping to 64 bits; and the result always fits in 64 bits.
Together with purity (it is a function of the byte list alone), this is the
full FNV-1a characterisation. -/
theorem C8_fnv1a_characterization :
    fnv1a [] = 0xcbf29ce484222325
    ∧ (∀ (bs : List Nat) (b : Nat),
        fnv1a (bs ++ [b]) = ((fnv1a bs ^^^ b) * 0x0100000001b3) % U64)
    ∧ (∀ bs : List Nat, fnv1a bs < U64) := by
  refine ⟨rfl, ?_, ?_⟩
  · intro bs b
    simp [fnv1a, List.foldl_append]
  · intro bs
    exact fnv1a_foldl_lt bs _ (by norm_num [U64])

/-- Claim C10: `temperature_k` does not influence the simulate derivation,
and `binding_threshold` does not influence the screen derivation (in
particular its hit list): two runs differing only in that parameter produce
identical derived output. -/
theorem C10_inert_parameters (molecule target : List Nat)
    (simulation_type : Option String) (steps library_size : Option Nat)
    (t1 t2 th1 th2 : Option ℚ) :
    simulate molecule simulation_type steps t1 = simulate molecule simulation_type steps t2
    ∧ (screen target library_size th1).hits = (screen target library_size th2).hits
    ∧ screen target library_size th1 = screen target library_size th2 :=
  ⟨rfl, rfl, rfl⟩

/-- Claim C1 counterexample: the serialized field list of the energy
response (read off the Rust `EnergyResponse` struct, whose handler performs
no timing at all) contains no elapsed-time field, so the energy operation's
response does not carry one. -/
theorem C1_counterexample : "elapsed_us" ∉ energyResponseFields := by
  decide

/-- Claim C1 amended: the simulate, screen and predict responses each carry
the elapsed-time field, while the energy response does not (and neither do
Stats and Health). -/
theorem C1_amended_elapsed_fields :
    "elapsed_us" ∈ simulateResponseFields
    ∧ "elapsed_us" ∈ screenResponseFields
    ∧ "elapsed_us" ∈ predictResponseFields
    ∧ "elapsed_us" ∉ energyResponseFields
    ∧ "elapsed_us" ∉ statsResponseFields
    ∧ "elapsed_us" ∉ healthResponseFields := by
  decide

/-- Claim C3: for every molecule text with hash `h`, simulate returns
energy `= -100 - (h % 500)` (hence in `[-599, -100]`), rmsd
`= (h % 30) * 0.1 + 0.5` (hence `≥ 0.5`), field resolution 128, and when
the optional fields are absent `simulation_type` defaults to
"molecular-dynamics" and `steps` to 10000. -/
theorem C3_simulate_formulas (molecule : List Nat) (simulation_type : Option String)
    (steps : Option Nat) (temperature_k : Option ℚ) :
    (simulate molecule simulation_type steps temperature_k).energy_kcal_mol
        = -100 - ((fnv1a molecule % 500 : Nat) : ℚ)
    ∧ (simulate molecule simulation_type steps temperature_k).rmsd_angstrom
        = ((fnv1a molecule % 30 : Nat) : ℚ) * (1 / 10) + 1 / 2
    ∧ (-599 : ℚ) ≤ (simulate molecule simulation_type steps temperature_k).energy_kcal_mol
    ∧ (simulate molecule simulation_type steps temperature_k).energy_kcal_mol ≤ -100
    ∧ (1 / 2 : ℚ) ≤ (simulate molecule simulation_type steps temperature_k).rmsd_angstrom
    ∧ (simulate molecule simulation_type steps temperature_k).sdf_field_resolution = 128
    ∧ (simulate molecule none none temperature_k).simulation_type = "molecular-dynamics"
    ∧ (simulate molecule none none temperature_k).steps = 10000 := by
  have h500 : ((fnv1a molecule % 500 : Nat) : ℚ) ≤ 499 := by
    exact_mod_cast Nat.lt_succ_iff.mp (Nat.mod_lt (fnv1a molecule) (show 0 < 500 by norm_num))
  have h500n : (0 : ℚ) ≤ ((fnv1a molecule % 500 : Nat) : ℚ) := Nat.cast_nonneg _
  have h30n : (0 : ℚ) ≤ ((fnv1a molecule % 30 : Nat) : ℚ) := Nat.cast_nonneg _
  refine ⟨rfl, rfl, ?_, ?_, ?_, rfl, rfl, rfl⟩
  · show (-599 : ℚ) ≤ -100 - ((fnv1a molecule % 500 : Nat) : ℚ)
    linarith
  · show -100 - ((fnv1a molecule % 500 : Nat) : ℚ) ≤ -100
    linarith
  · show (1 / 2 : ℚ) ≤ ((fnv1a molecule % 30 : Nat) : ℚ) * (1 / 10) + 1 / 2
    nlinarith

/-- Claim C4: the simulate response's folding label is "folded" exactly when
its rmsd is below 2.0 and "partially_folded" otherwise; both branches are
reachable — the text "caffeine" hashes into the folded branch and the text
"water" into the partially-folded branch. -/
theorem C4_folding_state (molecule : List Nat) (simulation_type : Option String)
    (steps : Option Nat) (temperature_k : Option ℚ) :
    ((simulate molecule simulation_type steps temperature_k).folding_state = "folded"
      ↔ (simulate molecule simulation_type steps temperature_k).rmsd_angstrom < 2)
    ∧ ((simulate molecule simulation_type steps temperature_k).folding_state = "partially_folded"
      ↔ ¬ (simulate molecule simulation_type steps temperature_k).rmsd_angstrom < 2)
    ∧ (simulate caffeineBytes none none none).folding_state = "folded"
    ∧ (simulate waterBytes none none none).folding_state = "partially_folded" := by
  have hcaf : (simulate caffeineBytes none none none).rmsd_angstrom < 2 := by
    show ((fnv1a caffeineBytes % 30 : Nat) : ℚ) * (1 / 10) + 1 / 2 < 2
    rw [show fnv1a caffeineBytes % 30 = 4 from by decide]
    norm_num
  have hwat : ¬ (simulate waterBytes none none none).rmsd_angstrom < 2 := by
    show ¬ ((fnv1a waterBytes % 30 : Nat) : ℚ) * (1 / 10) + 1 / 2 < 2
    rw [show fnv1a waterBytes % 30 = 20 from by decide]
    norm_num
  refine ⟨?_, ?_, ?_, ?_⟩
  · rw [simulate_folding_ite]
    exact ite_eq_first_iff (by decide)
  · rw [simulate_folding_ite]
    exact ite_eq_second_iff (by decide)
  · rw [simulate_folding_ite, if_pos hcaf]
  · rw [simulate_folding_ite, if_neg hwat]

/-- Claim C6: for every molecule text with hash `h`, the six energy terms
are `base - (h % range)` with pairs bond(-50,100), angle(-20,50),
dihedral(-10,30), vdw(-30,80), electrostatic(-15,40), solvation(-5,20);
each term is strictly negative and lies in `(base - range, base]`; and the
total is exactly the sum of the six terms. -/
theorem C6_energy_terms (molecule : List Nat) (force_field : Option String) :
    ((energy molecule force_field).bond_energy = -50 - ((fnv1a molecule % 100 : Nat) : ℚ)
      ∧ (energy molecule force_field).angle_energy = -20 - ((fnv1a molecule % 50 : Nat) : ℚ)
      ∧ (energy molecule force_field).dihedral_energy = -10 - ((fnv1a molecule % 30 : Nat) : ℚ)
      ∧ (energy molecule force_field).vdw_energy = -30 - ((fnv1a molecule % 80 : Nat) : ℚ)
      ∧ (energy molecule force_field).electrostatic_energy = -15 - ((fnv1a molecule % 40 : Nat) : ℚ)
      ∧ (energy molecule force_field).solvation_energy = -5 - ((fnv1a molecule % 20 : Nat) : ℚ))
    ∧ ((energy molecule force_field).bond_energy < 0
      ∧ -50 - 100 < (energy molecule force_field).bond_energy
      ∧ (energy molecule force_field).bond_energy ≤ -50)
    ∧ ((energy molecule force_field).angle_energy < 0
      ∧ -20 - 50 < (energy molecule force_field).angle_energy
      ∧ (energy molecule force_field).angle_energy ≤ -20)
    ∧ ((energy molecule force_field).dihedral_energy < 0
      ∧ -10 - 30 < (energy molecule force_field).dihedral_energy
      ∧ (energy molecule force_field).dihedral_energy ≤ -10)
    ∧ ((energy molecule force_field).vdw_energy < 0
      ∧ -30 - 80 < (energy molecule force_field).vdw_energy
      ∧ (energy molecule force_field).vdw_energy ≤ -30)
    ∧ ((energy molecule force_field).electrostatic_energy < 0
      ∧ -15 - 40 < (energy molecule force_field).electrostatic_energy
      ∧ (energy molecule force_field).electrostatic_energy ≤ -15)
    ∧ ((energy molecule force_field).solvation_energy < 0
      ∧ -5 - 20 < (energy molecule force_field).solvation_energy
      ∧ (energy molecule force_field).solvation_energy ≤ -5)
    ∧ (energy molecule force_field).total_energy_kcal
        = (energy molecule force_field).bond_energy
          + (energy molecule force_field).angle_energy
          + (energy molecule force_field).dihedral_energy
          + (energy molecule force_field).vdw_energy
          + (energy molecule force_field).electrostatic_energy
          + (energy molecule force_field).solvation_energy := by
  have e1 : (energy molecule force_field).bond_energy
      = -50 - ((fnv1a molecule % 100 : Nat) : ℚ) := rfl
  have e2 : (energy molecule force_field).angle_energy
      = -20 - ((fnv1a molecule % 50 : Nat) : ℚ) := rfl
  have e3 : (energy molecule force_field).dihedral_energy
      = -10 - ((fnv1a molecule % 30 : Nat) : ℚ) := rfl
  have e4 : (energy molecule force_field).vdw_energy
      = -30 - ((fnv1a molecule % 80 : Nat) : ℚ) := rfl
  have e5 : (energy molecule force_field).electrostatic_energy
      = -15 - ((fnv1a molecule % 40 : Nat) : ℚ) := rfl
  have e6 : (energy molecule force_field).solvation_energy
      = -5 - ((fnv1a molecule % 20 : Nat) : ℚ) := rfl
  have k1 : ((fnv1a molecule % 100 : Nat) : ℚ) < 100 := by
    exact_mod_cast Nat.mod_lt (fnv1a molecule) (show 0 < 100 by norm_num)
  have k2 : ((fnv1a molecule % 50 : Nat) : ℚ) < 50 := by
    exact_mod_cast Nat.mod_lt (fnv1a molecule) (show 0 < 50 by norm_num)
  have k3 : ((fnv1a molecule % 30 : Nat) : ℚ) < 30 := by
    exact_mod_cast Nat.mod_lt (fnv1a molecule) (show 0 < 30 by norm_num)
  have k4 : ((fnv1a molecule % 80 : Nat) : ℚ) < 80 := by
    exact_mod_cast Nat.mod_lt (fnv1a molecule) (show 0 < 80 by norm_num)
  have k5 : ((fnv1a molecule % 40 : Nat) : ℚ) < 40 := by
    exact_mod_cast Nat.mod_lt (fnv1a molecule) (show 0 < 40 by norm_num)
  have k6 : ((fnv1a molecule % 20 : Nat) : ℚ) < 20 := by
    exact_mod_cast Nat.mod_lt (fnv1a molecule) (show 0 < 20 by norm_num)
  have n1 : (0 : ℚ) ≤ ((fnv1a molecule % 100 : Nat) : ℚ) := Nat.cast_nonneg _
  have n2 : (0 : ℚ) ≤ ((fnv1a molecule % 50 : Nat) : ℚ) := Nat.cast_nonneg _
  have n3 : (0 : ℚ) ≤ ((fnv1a molecule % 30 : Nat) : ℚ) := Nat.cast_nonneg _
  have n4 : (0 : ℚ) ≤ ((fnv1a molecule % 80 : Nat) : ℚ) := Nat.cast_nonneg _
  have n5 : (0 : ℚ) ≤ ((fnv1a molecule % 40 : Nat) : ℚ) := Nat.cast_nonneg _
  have n6 : (0 : ℚ) ≤ ((fnv1a molecule % 20 : Nat) : ℚ) := Nat.cast_nonneg _
  refine ⟨⟨e1, e2, e3, e4, e5, e6⟩,
    ⟨by rw [e1]; linarith, by rw [e1]; linarith, by rw [e1]; linarith⟩,
    ⟨by rw [e2]; linarith, by rw [e2]; linarith, by rw [e2]; linarith⟩,
    ⟨by rw [e3]; linarith, by rw [e3]; linarith, by rw [e3]; linarith⟩,
    ⟨by rw [e4]; linarith, by rw [e4]; linarith, by rw [e4]; linarith⟩,
    ⟨by rw [e5]; linarith, by rw [e5]; linarith, by rw [e5]; linarith⟩,
    ⟨by rw [e6]; linarith, by rw [e6]; linarith, by rw [e6]; linarith⟩,
    rfl⟩

/-- Claim C7: each completed request updates exactly its specified counters
and leaves the others unchanged — `simulate` adds 1 to totalSimulations and
moleculesAnalyzed; `screen` adds 1 to totalScreenings and the screened
library size to moleculesAnalyzed; `predict` adds 1 to totalPredictions
only; `energy` adds 1 to moleculesAnalyzed only — and no counter ever
decreases across any sequence of operations. -/
theorem C7_counter_updates (st : Stats) (lib_size : Nat) (ops : List Op) :
    ((stepStats st .simulateOp).total_simulations = st.total_simulations + 1
      ∧ (stepStats st .simulateOp).molecules_analyzed = st.molecules_analyzed + 1
      ∧ (stepStats st .simulateOp).total_screenings = st.total_screenings
      ∧ (stepStats st .simulateOp).total_predictions = st.total_predictions)
    ∧ ((stepStats st (.screenOp lib_size)).total_screenings = st.total_screenings + 1
      ∧ (stepStats st (.screenOp lib_size)).molecules_analyzed
          = st.molecules_analyzed + lib_size
      ∧ (stepStats st (.screenOp lib_size)).total_simulations = st.total_simulations
      ∧ (stepStats st (.screenOp lib_size)).total_predictions = st.total_predictions)
    ∧ ((stepStats st .predictOp).total_predictions = st.total_predictions + 1
      ∧ (stepStats st .predictOp).total_simulations = st.total_simulations
      ∧ (stepStats st .predictOp).total_screenings = st.total_screenings
      ∧ (stepStats st .predictOp).molecules_analyzed = st.molecules_analyzed)
    ∧ ((stepStats st .energyOp).molecules_analyzed = st.molecules_analyzed + 1
      ∧ (stepStats st .energyOp).total_simulations = st.total_simulations
      ∧ (stepStats st .energyOp).total_screenings = st.total_screenings
      ∧ (stepStats st .energyOp).total_predictions = st.total_predictions)
    ∧ (st.total_simulations ≤ (runOps st ops).total_simulations
      ∧ st.total_screenings ≤ (runOps st ops).total_screenings
      ∧ st.total_predictions ≤ (runOps st ops).total_predictions
      ∧ st.molecules_analyzed ≤ (runOps st ops).molecules_analyzed) :=
  ⟨⟨rfl, rfl, rfl, rfl⟩, ⟨rfl, rfl, rfl, rfl⟩, ⟨rfl, rfl, rfl, rfl⟩,
   ⟨rfl, rfl, rfl, rfl⟩, runOps_mono ops st⟩

/-- Claim C2: for every target text and library size (defaulting to 10000
when absent), with `h` the 64-bit hash of the target text, screen returns
exactly `min 20 ⌊librarySize * 0.005⌋` hits (20 for 10000, 0 for 100), and
hit `i` has affinity `(h + i) % 100 + 1`, selectivity
`0.7 + ((h + i) % 30) * 0.01`, drug-likeness
`0.5 + ((h + 7 * i) % 50) * 0.01`, and compound id `"ALICE-"` followed by
the 6-digit zero-padded `(h + i) % 999999` — all additions in wrapping
64-bit arithmetic, `h` being a 64-bit value (`h.wrapping_add` in the
source), made explicit here as `% U64`. -/
theorem C2_screen_hits (target : List Nat) (library_size : Option Nat)
    (binding_threshold : Option ℚ) :
    (screen target library_size binding_threshold).hits.length
        = min 20 ((library_size.getD 10000) * 5 / 1000)
    ∧ (screen target (some 10000) binding_threshold).hits.length = 20
    ∧ (screen target (some 100) binding_threshold).hits.length = 0
    ∧ (screen target library_size binding_threshold).hits
        = (List.range (min 20 ((library_size.getD 10000) * 5 / 1000))).map
            (fun i =>
              ({ compound_id := "ALICE-" ++ pad6 ((fnv1a target + i) % U64 % 999999)
                 binding_affinity_nm := (((fnv1a target + i) % U64 % 100 : Nat) : ℚ) + 1
                 selectivity_score :=
                   7 / 10 + (((fnv1a target + i) % U64 % 30 : Nat) : ℚ) * (1 / 100)
                 drug_likeness :=
                   1 / 2 + (((fnv1a target + i * 7) % U64 % 50 : Nat) : ℚ) * (1 / 100) }
                : ScreenHit)) := by
  refine ⟨?_, rfl, rfl, ?_⟩
  · show ((List.range (min ((library_size.getD 10000) * 5 / 1000) 20)).map
        (screenHit (fnv1a target))).length
        = min 20 ((library_size.getD 10000) * 5 / 1000)
    rw [List.length_map, List.length_range, Nat.min_comm]
  · show (List.range (min ((library_size.getD 10000) * 5 / 1000) 20)).map
        (screenHit (fnv1a target)) = _
    rw [Nat.min_comm]
    rfl

/-- Claim C5: for every sequence text of length `L ≥ 3` with hash `h`,
predict returns confidence `0.70 + (h % 25) * 0.01` (in `[0.70, 0.95)`),
representation byte size `L * 128`, and exactly two domains with
`domain1.end = domain2.start = L / 3`, `domain2.end = 2 * L / 3`, domain 1
of type "catalytic" with confidence base + 0.05 and domain 2 of type
"regulatory" with the base confidence. -/
theorem C5_predict_invariants (sequence : List Nat) (prediction_type : Option String)
    (_hL : 3 ≤ sequence.length) :
    (predict sequence prediction_type).structure_confidence
        = 7 / 10 + ((fnv1a sequence % 25 : Nat) : ℚ) * (1 / 100)
    ∧ 7 / 10 ≤ (predict sequence prediction_type).structure_confidence
    ∧ (predict sequence prediction_type).structure_confidence < 95 / 100
    ∧ (predict sequence prediction_type).sdf_representation_bytes = sequence.length * 128
    ∧ ∃ d1 d2 : DomainInfo,
        (predict sequence prediction_type).domains = [d1, d2]
        ∧ d1.start = 0
        ∧ d1.«end» = sequence.length / 3
        ∧ d2.start = sequence.length / 3
        ∧ d2.«end» = 2 * sequence.length / 3
        ∧ d1.domain_type = "catalytic"
        ∧ d2.domain_type = "regulatory"
        ∧ d1.confidence = (predict sequence prediction_type).structure_confidence + 5 / 100
        ∧ d2.confidence = (predict sequence prediction_type).structure_confidence := by
  have hk : ((fnv1a sequence % 25 : Nat) : ℚ) ≤ 24 := by
    exact_mod_cast Nat.lt_succ_iff.mp (Nat.mod_lt (fnv1a sequence) (show 0 < 25 by norm_num))
  have hn : (0 : ℚ) ≤ ((fnv1a sequence % 25 : Nat) : ℚ) := Nat.cast_nonneg _
  refine ⟨rfl, ?_, ?_, rfl, ?_⟩
  · show (7 / 10 : ℚ) ≤ 7 / 10 + ((fnv1a sequence % 25 : Nat) : ℚ) * (1 / 100)
    nlinarith
  · show 7 / 10 + ((fnv1a sequence % 25 : Nat) : ℚ) * (1 / 100) < 95 / 100
    nlinarith
  · refine ⟨_, _, rfl, rfl, rfl, rfl, ?_, rfl, rfl, rfl, rfl⟩
    show sequence.length * 2 / 3 = 2 * sequence.length / 3
    rw [Nat.mul_comm]

/-- Claim C5 witness: the 8-byte sequence "caffeine" satisfies the length
hypothesis, and predict on it yields confidence 0.89 and exactly two
domains. -/
theorem C5_predict_witness :
    3 ≤ caffeineBytes.length
    ∧ (predict caffeineBytes none).structure_confidence = 89 / 100
    ∧ (predict caffeineBytes none).domains.length = 2 := by
  refine ⟨by decide, ?_, ?_⟩
  · have h := (C5_predict_invariants caffeineBytes none (by decide)).1
    rw [h, show fnv1a caffeineBytes % 25 = 19 from by decide]
    norm_num
  · obtain ⟨d1, d2, hd, -⟩ :=
      (C5_predict_invariants caffeineBytes none (by decide)).2.2.2.2
    rw [hd]
    rfl

/-- Claim C9: every derivation is total — for arbitrary resolved inputs
(any byte text, including the empty one, and any numeric or optional
field), the failure-aware variants, in which every fallible step of the
source (integer `%` and `/`) is checked, succeed and return exactly the
plain derivation's result: no derivation step can fail. -/
theorem C9_derivations_total (molecule target sequence : List Nat)
    (simulation_type prediction_type force_field : Option String)
    (steps library_size : Option Nat)
    (temperature_k binding_threshold : Option ℚ) :
    simulateChecked molecule simulation_type steps temperature_k
        = some (simulate molecule simulation_type steps temperature_k)
    ∧ screenChecked target library_size binding_threshold
        = some (screen target library_size binding_threshold)
    ∧ predictChecked sequence prediction_type = some (predict sequence prediction_type)
    ∧ energyChecked molecule force_field = some (energy molecule force_field) := by
  refine ⟨rfl, ?_, rfl, rfl⟩
  have hmap := mapOption_eq_some_map (screenHitChecked (fnv1a target))
      (screenHit (fnv1a target)) (fun i => rfl)
      (List.range (min ((library_size.getD 10000) * 5 / 1000) 20))
  show (mapOption (screenHitChecked (fnv1a target))
        (List.range (min ((library_size.getD 10000) * 5 / 1000) 20))).bind
        (fun hits => some ({ target := target
                             library_screened := library_size.getD 10000
                             hits := hits
                             hit_rate_pct := 1 / 2 } : ScreenResponse))
      = some (screen target library_size binding_threshold)
  rw [hmap]
  rfl

end AliceBio
